import Mathlib

/-!
Shallow embedding of the `azindex` tool: an Azure VM inventory that classifies
each VM image by end-of-life status.  The embedding follows the Rust sources:
`src/main.rs` (family dispatch, CSV/Excel output), `src/vmresult.rs`,
`src/eol.rs` (calendar records), and `src/eol_detection/{ubuntu,centos,redhat}.rs`
(per-family version parsing and EOL classification).
-/

set_option autoImplicit false

/-! ### Dates

`chrono::NaiveDate` is modelled as a (year, month, day) triple; chrono orders
dates chronologically, which on valid dates is the lexicographic order on the
triple.  `checked_add_months(Months::new(12))` adds one year, clamping the day
to the length of the target month. -/

structure NaiveDate where
  year : Int
  month : Nat
  day : Nat
deriving DecidableEq, Repr

/-- Strict chronological order on dates, as a boolean (chrono's `<`). -/
def NaiveDate.ltb (a b : NaiveDate) : Bool :=
  decide (a.year < b.year ∨ (a.year = b.year ∧
    (a.month < b.month ∨ (a.month = b.month ∧ a.day < b.day))))

def isLeapYear (y : Int) : Bool :=
  y % 4 == 0 && (y % 100 != 0 || y % 400 == 0)

def daysInMonth (y : Int) (m : Nat) : Nat :=
  if m = 2 then (if isLeapYear y then 29 else 28)
  else if m = 4 ∨ m = 6 ∨ m = 9 ∨ m = 11 then 30
  else 31

/-- `chrono::Utc::now().checked_add_months(Months::new(12)).unwrap().date_naive()`:
adds 12 months to the current date, clamping the day to the target month. -/
def addMonths12 (d : NaiveDate) : NaiveDate :=
  { year := d.year + 1, month := d.month,
    day := min d.day (daysInMonth (d.year + 1) d.month) }

/-- Left-pad a decimal numeral with zeros to the given width. -/
def padZeros (w : Nat) (s : String) : String :=
  String.mk (List.replicate (w - s.length) '0') ++ s

/-- chrono's `Display` for `NaiveDate` (the `%Y-%m-%d` form used by
`format!("Ending {}", item.eol)`). -/
def NaiveDate.display (d : NaiveDate) : String :=
  (if d.year < 0 then "-" ++ padZeros 4 (toString (-d.year).toNat)
   else padZeros 4 (toString d.year.toNat)) ++ "-" ++
  padZeros 2 (toString d.month) ++ "-" ++ padZeros 2 (toString d.day)

/-! ### String helpers mirroring the Rust standard library -/

/-- Rust `str::split` with a one-character separator: always yields at least
one (possibly empty) segment. -/
def splitChar (sep : Char) : List Char → List (List Char)
  | [] => [[]]
  | c :: rest =>
    if c = sep then [] :: splitChar sep rest
    else
      match splitChar sep rest with
      | [] => [[c]]
      | h :: t => (c :: h) :: t

/-- Rust `str::contains` with a string pattern (on character lists). -/
def containsPat (pat : List Char) : List Char → Bool
  | [] => pat.isEmpty
  | c :: rest => pat.isPrefixOf (c :: rest) || containsPat pat rest

/-- Rust `str::contains` on `String`s. -/
def strContains (s pat : String) : Bool :=
  containsPat pat.data s.data

/-- Rust `String::to_lowercase` (ASCII-faithful). -/
def to_lowercase (s : String) : String :=
  String.mk (s.data.map Char.toLower)

/-! ### Data model: `src/eol.rs` and `src/vmresult.rs` -/

/-- One record of a vendor's EOL calendar (`EOLEntity` in `src/eol.rs`). -/
structure EOLEntity where
  cycle : String
  lts : Bool
  release_date : NaiveDate
  latest : String
  support : NaiveDate
  eol : NaiveDate
  latest_release_date : Option NaiveDate
deriving DecidableEq, Repr

/-- `azure_mgmt_compute::models::os_disk::OsType`. -/
inductive OsType where
  | Linux
  | Windows
deriving DecidableEq, Repr

/-- One inventory record (`VMResult` in `src/vmresult.rs`). -/
structure VMResult where
  id : String
  subscription_id : String
  publisher : String
  offer : String
  sku : String
  version : String
  exact_version : String
  os_type : Option OsType
deriving DecidableEq, Repr

/-- `VMResult::csv_header_line` from `src/vmresult.rs`. -/
def csv_header_line : String :=
  "Deprecated;Version (detected);ID;OS;Subscription;Publisher;Offer;SKU;Version;Exact version\n"

/-! ### Version parsers (`parse_azure_version` in each family module) -/

namespace ubuntu

/-- `ubuntu::parse_azure_version`: split on `-`, take the first segment; if
that segment splits on `_` into exactly two parts, join them with `.`. -/
def parse_azure_version (az_version : String) : Option String :=
  match splitChar '-' az_version.data with
  | [] => none
  | first :: _ =>
    match splitChar '_' first with
    | [a, b] => some (String.mk (a ++ '.' :: b))
    | _ => some (String.mk first)

end ubuntu

namespace centos

/-- `centos::parse_azure_version`: split on `.`; with at least two parts keep
the first; otherwise split on `-` and keep the first part. -/
def parse_azure_version (az_version : String) : Option String :=
  let parts := splitChar '.' az_version.data
  if parts.length < 2 then
    match splitChar '-' az_version.data with
    | [] => none
    | first :: _ => some (String.mk first)
  else
    match parts with
    | [] => none
    | first :: _ => some (String.mk first)

end centos

namespace redhat

/-- `redhat::parse_azure_version` (textually identical to the CentOS parser). -/
def parse_azure_version (az_version : String) : Option String :=
  let parts := splitChar '.' az_version.data
  if parts.length < 2 then
    match splitChar '-' az_version.data with
    | [] => none
    | first :: _ => some (String.mk first)
  else
    match parts with
    | [] => none
    | first :: _ => some (String.mk first)

end redhat

/-! ### EOL classification (`is_outdated` in each family module)

Each `is_outdated` takes the current date as an explicit argument (the Rust
code reads `chrono::Utc::now()`), making classification a pure function of
(vm, calendar, now). -/

namespace ubuntu

/-- The `for item in eol_list` loop of `ubuntu::is_outdated`: the first
matching entry with `eol < now` gives `"EOL"`, with `eol > now` gives
`"Supported"`; an entry with `eol == now` only logs and the loop continues. -/
def eolLoop (version : String) (now : NaiveDate) : List EOLEntity → String
  | [] => "--"
  | item :: rest =>
    if item.cycle = version then
      if item.eol.ltb now then "EOL"
      else if now.ltb item.eol then "Supported"
      else eolLoop version now rest
    else eolLoop version now rest

/-- `ubuntu::is_outdated`. -/
def is_outdated (vm : VMResult) (eol_list : List EOLEntity) (now : NaiveDate) : String :=
  match parse_azure_version vm.sku with
  | none => "--"
  | some version => eolLoop version now eol_list

end ubuntu

namespace centos

/-- The `for item in eol_list` loop of `centos::is_outdated`: like Ubuntu's
but with a 12-month lookahead window producing `"Ending <eol>"`. -/
def eolLoop (version : String) (now : NaiveDate) : List EOLEntity → String
  | [] => "--"
  | item :: rest =>
    if item.cycle = version then
      if item.eol.ltb now then "EOL"
      else if now.ltb item.eol then
        if item.eol.ltb (addMonths12 now) then "Ending " ++ item.eol.display
        else "Supported"
      else eolLoop version now rest
    else eolLoop version now rest

/-- `centos::is_outdated`. -/
def is_outdated (vm : VMResult) (eol_list : List EOLEntity) (now : NaiveDate) : String :=
  match parse_azure_version vm.sku with
  | none => "--"
  | some version => eolLoop version now eol_list

end centos

namespace redhat

/-- The `for item in eol_list` loop of `redhat::is_outdated` (textually
identical to the CentOS loop). -/
def eolLoop (version : String) (now : NaiveDate) : List EOLEntity → String
  | [] => "--"
  | item :: rest =>
    if item.cycle = version then
      if item.eol.ltb now then "EOL"
      else if now.ltb item.eol then
        if item.eol.ltb (addMonths12 now) then "Ending " ++ item.eol.display
        else "Supported"
      else eolLoop version now rest
    else eolLoop version now rest

/-- `redhat::is_outdated`. -/
def is_outdated (vm : VMResult) (eol_list : List EOLEntity) (now : NaiveDate) : String :=
  match parse_azure_version vm.sku with
  | none => "--"
  | some version => eolLoop version now eol_list

end redhat

/-! ### Report sink: family dispatch in `write_to_excel` / `write_to_csv`

The `windows` module of `eol_detection` is referenced by `main.rs` but its
source file is absent from the repository snapshot, so the Windows parser and
classifier are passed in as parameters (`wparse`, `wclassify`); no claim here
depends on their behaviour. -/

/-- The `version_info` block of `write_to_excel` (`main.rs` lines 196–216):
a case-insensitive substring test on `vm.offer` picks the family, in the
order ubuntu, centos, windows, rhel; anything else yields `("", "--")`. -/
def version_info_excel (wparse : String → Option String)
    (wclassify : VMResult → List EOLEntity → NaiveDate → String)
    (vm : VMResult)
    (ubuntu_eol centos_eol windows_eol redhat_eol : List EOLEntity)
    (now : NaiveDate) : String × String :=
  if strContains (to_lowercase vm.offer) "ubuntu" then
    ((ubuntu.parse_azure_version vm.sku).getD "", ubuntu.is_outdated vm ubuntu_eol now)
  else if strContains (to_lowercase vm.offer) "centos" then
    ((centos.parse_azure_version vm.sku).getD "", centos.is_outdated vm centos_eol now)
  else if strContains (to_lowercase vm.offer) "windows" then
    ((wparse vm.sku).getD "", wclassify vm windows_eol now)
  else if strContains (to_lowercase vm.offer) "rhel" then
    ((redhat.parse_azure_version vm.sku).getD "", redhat.is_outdated vm redhat_eol now)
  else ("", "--")

/-- The `version_info` block of `write_to_csv` (`main.rs` lines 264–280):
same dispatch but with no rhel branch at all. -/
def version_info_csv (wparse : String → Option String)
    (wclassify : VMResult → List EOLEntity → NaiveDate → String)
    (vm : VMResult)
    (ubuntu_eol centos_eol windows_eol : List EOLEntity)
    (now : NaiveDate) : String × String :=
  if strContains (to_lowercase vm.offer) "ubuntu" then
    ((ubuntu.parse_azure_version vm.sku).getD "", ubuntu.is_outdated vm ubuntu_eol now)
  else if strContains (to_lowercase vm.offer) "centos" then
    ((centos.parse_azure_version vm.sku).getD "", centos.is_outdated vm centos_eol now)
  else if strContains (to_lowercase vm.offer) "windows" then
    ((wparse vm.sku).getD "", wclassify vm windows_eol now)
  else ("", "--")

/-- OS families distinguished by the report sink. -/
inductive OSFamily where
  | Ubuntu
  | CentOS
  | RHEL
  | Windows
  | Unknown
deriving DecidableEq, Repr

/-- The family whose parser/classifier pair `write_to_excel` invokes for a
record (read off the if/else chain in `main.rs` lines 196–216). -/
def excel_family (vm : VMResult) : OSFamily :=
  if strContains (to_lowercase vm.offer) "ubuntu" then .Ubuntu
  else if strContains (to_lowercase vm.offer) "centos" then .CentOS
  else if strContains (to_lowercase vm.offer) "windows" then .Windows
  else if strContains (to_lowercase vm.offer) "rhel" then .RHEL
  else .Unknown

/-- The family whose parser/classifier pair `write_to_csv` invokes for a
record (`main.rs` lines 264–280; there is no rhel branch). -/
def csv_family (vm : VMResult) : OSFamily :=
  if strContains (to_lowercase vm.offer) "ubuntu" then .Ubuntu
  else if strContains (to_lowercase vm.offer) "centos" then .CentOS
  else if strContains (to_lowercase vm.offer) "windows" then .Windows
  else .Unknown

/-- Modelled from the spec: the claimed family-selection rule, "a
case-insensitive substring match on the record's publisher/offer fields,
tested in the priority order ubuntu, centos, rhel, windows". -/
def claim_family (publisher offer : String) : OSFamily :=
  if strContains (to_lowercase publisher) "ubuntu" ∨ strContains (to_lowercase offer) "ubuntu" then .Ubuntu
  else if strContains (to_lowercase publisher) "centos" ∨ strContains (to_lowercase offer) "centos" then .CentOS
  else if strContains (to_lowercase publisher) "rhel" ∨ strContains (to_lowercase offer) "rhel" then .RHEL
  else if strContains (to_lowercase publisher) "windows" ∨ strContains (to_lowercase offer) "windows" then .Windows
  else .Unknown

/-- Dispatch on an already-selected family: the parser/classifier pair each
family name stands for in `main.rs`. -/
def family_dispatch (wparse : String → Option String)
    (wclassify : VMResult → List EOLEntity → NaiveDate → String)
    (vm : VMResult)
    (ubuntu_eol centos_eol windows_eol redhat_eol : List EOLEntity)
    (now : NaiveDate) : OSFamily → String × String
  | .Ubuntu => ((ubuntu.parse_azure_version vm.sku).getD "", ubuntu.is_outdated vm ubuntu_eol now)
  | .CentOS => ((centos.parse_azure_version vm.sku).getD "", centos.is_outdated vm centos_eol now)
  | .Windows => ((wparse vm.sku).getD "", wclassify vm windows_eol now)
  | .RHEL => ((redhat.parse_azure_version vm.sku).getD "", redhat.is_outdated vm redhat_eol now)
  | .Unknown => ("", "--")

/-! ### CSV rows (`write_to_csv` in `main.rs`) -/

/-- Rust `{:?}` (Debug) on `Option<OsType>`, as used in the CSV line format. -/
def osTypeDebug : Option OsType → String
  | none => "None"
  | some .Linux => "Some(Linux)"
  | some .Windows => "Some(Windows)"

/-- Rust `{:?}` (Debug) on `OsType` after `if let Some(..)`, as used by the
Excel writer; a missing `os_type` renders as `"--"` there. -/
def osTypeCell : Option OsType → String
  | none => "--"
  | some .Linux => "Linux"
  | some .Windows => "Windows"

/-- The ten `;`-separated fields of one CSV data row, in the order of the
`format!` call in `write_to_csv` (`main.rs` lines 282–285). -/
def csv_fields (vm : VMResult) (detected status : String) : List String :=
  [detected, status, vm.id, osTypeDebug vm.os_type, vm.subscription_id,
   vm.publisher, vm.offer, vm.sku, vm.version, vm.exact_version]

/-- One CSV data row as written by `write_to_csv`. -/
def csv_line (vm : VMResult) (detected status : String) : String :=
  String.intercalate ";" (csv_fields vm detected status) ++ "\n"

/-- The header labels of `csv_header_line`, split at `;`. -/
def csv_header_fields : List String :=
  ["Deprecated", "Version (detected)", "ID", "OS", "Subscription",
   "Publisher", "Offer", "SKU", "Version", "Exact version"]

/-! ### VM enumeration (`list_vms` in `main.rs`)

Only the per-VM-entry record construction carries logic; the Azure list
types are modelled with the optional nested fields the code inspects. -/

structure ImageReference where
  sku : Option String
  publisher : Option String
  offer : Option String
  version : Option String
  exact_version : Option String
deriving DecidableEq, Repr

structure OsDisk where
  os_type : Option OsType
deriving DecidableEq, Repr

structure StorageProfile where
  image_reference : Option ImageReference
  os_disk : Option OsDisk
deriving DecidableEq, Repr

structure VMProperties where
  storage_profile : Option StorageProfile
deriving DecidableEq, Repr

structure VM where
  id : Option String
  properties : Option VMProperties
deriving DecidableEq, Repr

/-- The body of the per-VM loop in `list_vms` (`main.rs` lines 112–159):
`none` means the entry was skipped with a diagnostic (`continue`); `some r`
means exactly the record `r` was sent on the channel. -/
def process_vm (subscription_id : String) (vm : VM) : Option VMResult :=
  match vm.properties with
  | none => none
  | some properties =>
    match properties.storage_profile with
    | none => none
    | some storage_profile =>
      let image_info :=
        match storage_profile.image_reference with
        | some r => (r.sku.getD "", r.publisher.getD "", r.offer.getD "",
                     r.version.getD "", r.exact_version.getD "")
        | none => ("", "", "", "", "")
      match storage_profile.os_disk with
      | none => none
      | some os_disk =>
        some { id := vm.id.getD ""
               subscription_id := subscription_id
               publisher := image_info.2.1
               offer := image_info.2.2.1
               sku := image_info.1
               version := image_info.2.2.2.1
               exact_version := image_info.2.2.2.2
               os_type := os_disk.os_type }

/-! ### Output drivers as effect traces (`write_to_csv`, `write_to_excel`,
`main`)

The writers interleave I/O with calendar fetches; they are modelled as
functions from the outcome of each vendor fetch (`fetch_eol` returns
`Result`, here `Except`) to the list of file-system effects performed, in
order, together with the `Result` the function returns.  An early `?` return
keeps the effects already performed — nothing is deleted or rolled back. -/

inductive OutEffect where
  | createFile
  | writeLine (s : String)
  | writeRow (cells : List String)
deriving DecidableEq, Repr

/-- The outcome of the four `fetch_eol` calls a run may make. -/
structure FetchResults where
  ubuntu : Except String (List EOLEntity)
  centos : Except String (List EOLEntity)
  windows : Except String (List EOLEntity)
  redhat : Except String (List EOLEntity)

/-- `write_to_csv` (`main.rs` lines 254–290): create the file and write the
header, then fetch the ubuntu, centos and windows calendars (each `?`
propagates a failure), then write one line per received record. -/
def write_to_csv (wparse : String → Option String)
    (wclassify : VMResult → List EOLEntity → NaiveDate → String)
    (fr : FetchResults) (records : List VMResult) (now : NaiveDate) :
    List OutEffect × Except String Unit :=
  let pre := [OutEffect.createFile, OutEffect.writeLine csv_header_line]
  match fr.ubuntu with
  | .error e => (pre, .error e)
  | .ok ubuntu_eol =>
    match fr.centos with
    | .error e => (pre, .error e)
    | .ok centos_eol =>
      match fr.windows with
      | .error e => (pre, .error e)
      | .ok windows_eol =>
        (pre ++ records.map (fun vm =>
          let vi := version_info_csv wparse wclassify vm ubuntu_eol centos_eol windows_eol now
          OutEffect.writeLine (csv_line vm vi.1 vi.2)), .ok ())

/-- `write_to_excel` (`main.rs` lines 165–252): fetch all four calendars
first (each `?` propagates a failure before any file is created), then
create the workbook, write the header row and one row per record. -/
def write_to_excel (wparse : String → Option String)
    (wclassify : VMResult → List EOLEntity → NaiveDate → String)
    (fr : FetchResults) (records : List VMResult) (now : NaiveDate) :
    List OutEffect × Except String Unit :=
  match fr.ubuntu with
  | .error e => ([], .error e)
  | .ok ubuntu_eol =>
    match fr.centos with
    | .error e => ([], .error e)
    | .ok centos_eol =>
      match fr.windows with
      | .error e => ([], .error e)
      | .ok windows_eol =>
        match fr.redhat with
        | .error e => ([], .error e)
        | .ok redhat_eol =>
          (OutEffect.createFile ::
             OutEffect.writeRow ["Detected version", "Deprecated", "OS",
               "Subscription", "Offer", "SKU", "Version", "Version exact",
               "Publisher", "Resource ID"] ::
             records.map (fun vm =>
               let vi := version_info_excel wparse wclassify vm
                 ubuntu_eol centos_eol windows_eol redhat_eol now
               OutEffect.writeRow [vi.1, vi.2, osTypeCell vm.os_type,
                 vm.subscription_id, vm.offer, vm.sku, vm.version,
                 vm.exact_version, vm.publisher, vm.id]), .ok ())

/-- The `--format` values accepted by the CLI (`OutputType` in `main.rs`). -/
inductive OutputType where
  | EXCEL
  | CSV
  | UNKNOWN
deriving DecidableEq, Repr

/-- The format dispatch of `main` (`main.rs` lines 53–98): an unknown format
prints an error and returns `Ok(())` without producing output; otherwise the
chosen writer's result is propagated by `?`. -/
def main_run (wparse : String → Option String)
    (wclassify : VMResult → List EOLEntity → NaiveDate → String)
    (fmt : OutputType) (fr : FetchResults) (records : List VMResult)
    (now : NaiveDate) : List OutEffect × Except String Unit :=
  match fmt with
  | .UNKNOWN => ([], .ok ())
  | .CSV => write_to_csv wparse wclassify fr records now
  | .EXCEL => write_to_excel wparse wclassify fr records now

/-- Modelled from the spec: the missing runtime mapping from the value
`main` returns to the process exit status — "a fatal error terminates the
process with a non-zero status"; a `Result::Ok` return exits with status 0. -/
def exit_status : Except String Unit → Nat
  | .error _ => 1
  | .ok _ => 0

/-! ### Concrete fixtures used by witnesses and counterexamples -/

/-- A concrete Ubuntu inventory record. -/
def sampleVMUbuntu : VMResult :=
  { id := "/subscriptions/s1/vm/u1", subscription_id := "s1",
    publisher := "Canonical", offer := "UbuntuServer", sku := "18.04-LTS",
    version := "latest", exact_version := "18.04.202401010",
    os_type := some OsType.Linux }

/-- A concrete CentOS inventory record. -/
def sampleVMCentos : VMResult :=
  { id := "/subscriptions/s1/vm/c1", subscription_id := "s1",
    publisher := "OpenLogic", offer := "CentOS", sku := "7.6",
    version := "latest", exact_version := "7.6.20240101",
    os_type := some OsType.Linux }

/-- A concrete RHEL inventory record. -/
def sampleVMRedhat : VMResult :=
  { id := "/subscriptions/s1/vm/r1", subscription_id := "s1",
    publisher := "RedHat", offer := "RHEL", sku := "7-LVM",
    version := "latest", exact_version := "7.20240101",
    os_type := some OsType.Linux }

/-- A concrete EOL calendar entry with the given cycle id and EOL date. -/
def sampleEntry (cycle : String) (eol : NaiveDate) : EOLEntity :=
  { cycle := cycle, lts := true, release_date := ⟨2018, 4, 26⟩,
    latest := "latest", support := ⟨2023, 5, 31⟩, eol := eol,
    latest_release_date := none }

/-- A fixed "current date" for concrete classification runs. -/
def dNow : NaiveDate := ⟨2026, 10, 12⟩

/-! ### Helper lemmas -/

theorem NaiveDate.ltb_asymm {a b : NaiveDate} (h : a.ltb b = true) :
    b.ltb a = false := by
  simp only [NaiveDate.ltb, decide_eq_true_eq, decide_eq_false_iff_not] at h ⊢
  omega

theorem NaiveDate.ltb_irrefl (a : NaiveDate) : a.ltb a = false := by
  simp only [NaiveDate.ltb, decide_eq_false_iff_not]
  omega

theorem splitChar_ne_nil (sep : Char) (l : List Char) : splitChar sep l ≠ [] := by
  induction l with
  | nil => simp [splitChar]
  | cons c rest ih =>
    simp only [splitChar]
    by_cases h : c = sep
    · simp [h]
    · simp only [if_neg h]
      cases hs : splitChar sep rest <;> simp

theorem ubuntu_parse_isSome (s : String) :
    (ubuntu.parse_azure_version s).isSome = true := by
  rcases hs : splitChar '-' s.data with _ | ⟨first, rest⟩
  · exact absurd hs (splitChar_ne_nil _ _)
  · rcases h2 : splitChar '_' first with _ | ⟨a, _ | ⟨b, _ | t⟩⟩ <;>
      simp [ubuntu.parse_azure_version, hs, h2]

theorem centos_parse_isSome (s : String) :
    (centos.parse_azure_version s).isSome = true := by
  rcases hd : splitChar '.' s.data with _ | ⟨firstd, restd⟩
  · exact absurd hd (splitChar_ne_nil _ _)
  · rcases hm : splitChar '-' s.data with _ | ⟨firstm, restm⟩
    · exact absurd hm (splitChar_ne_nil _ _)
    · simp only [centos.parse_azure_version, hd, hm]
      split <;> rfl

theorem redhat_parse_isSome (s : String) :
    (redhat.parse_azure_version s).isSome = true := by
  rcases hd : splitChar '.' s.data with _ | ⟨firstd, restd⟩
  · exact absurd hd (splitChar_ne_nil _ _)
  · rcases hm : splitChar '-' s.data with _ | ⟨firstm, restm⟩
    · exact absurd hm (splitChar_ne_nil _ _)
    · simp only [redhat.parse_azure_version, hd, hm]
      split <;> rfl

theorem ubuntu_eolLoop_no_match {v : String} {now : NaiveDate} {l : List EOLEntity}
    (h : ∀ e ∈ l, e.cycle ≠ v) : ubuntu.eolLoop v now l = "--" := by
  induction l with
  | nil => rfl
  | cons x xs ih =>
    have hx : x.cycle ≠ v := h x (List.mem_cons_self x xs)
    simp only [ubuntu.eolLoop, if_neg hx]
    exact ih (fun e he => h e (List.mem_cons_of_mem x he))

theorem centos_eolLoop_no_match {v : String} {now : NaiveDate} {l : List EOLEntity}
    (h : ∀ e ∈ l, e.cycle ≠ v) : centos.eolLoop v now l = "--" := by
  induction l with
  | nil => rfl
  | cons x xs ih =>
    have hx : x.cycle ≠ v := h x (List.mem_cons_self x xs)
    simp only [centos.eolLoop, if_neg hx]
    exact ih (fun e he => h e (List.mem_cons_of_mem x he))

theorem redhat_eolLoop_eq_centos (v : String) (now : NaiveDate) (l : List EOLEntity) :
    redhat.eolLoop v now l = centos.eolLoop v now l := by
  induction l with
  | nil => rfl
  | cons x xs ih => simp only [redhat.eolLoop, centos.eolLoop, ih]

theorem ubuntu_eolLoop_all_now {v : String} {now : NaiveDate} {l : List EOLEntity}
    (h : ∀ e ∈ l, e.cycle = v → e.eol = now) : ubuntu.eolLoop v now l = "--" := by
  induction l with
  | nil => rfl
  | cons x xs ih =>
    have ih' := ih (fun e he hc => h e (List.mem_cons_of_mem x he) hc)
    by_cases hx : x.cycle = v
    · have hnow : x.eol = now := h x (List.mem_cons_self x xs) hx
      simp only [ubuntu.eolLoop, if_pos hx, hnow, NaiveDate.ltb_irrefl, if_neg Bool.false_ne_true]
      exact ih'
    · simp only [ubuntu.eolLoop, if_neg hx]
      exact ih'

theorem centos_eolLoop_all_now {v : String} {now : NaiveDate} {l : List EOLEntity}
    (h : ∀ e ∈ l, e.cycle = v → e.eol = now) : centos.eolLoop v now l = "--" := by
  induction l with
  | nil => rfl
  | cons x xs ih =>
    have ih' := ih (fun e he hc => h e (List.mem_cons_of_mem x he) hc)
    by_cases hx : x.cycle = v
    · have hnow : x.eol = now := h x (List.mem_cons_self x xs) hx
      simp only [centos.eolLoop, if_pos hx, hnow, NaiveDate.ltb_irrefl, if_neg Bool.false_ne_true]
      exact ih'
    · simp only [centos.eolLoop, if_neg hx]
      exact ih'

theorem ubuntu_eolLoop_first_match {v : String} {now : NaiveDate} {l : List EOLEntity}
    {e : EOLEntity} (hf : l.find? (fun x => x.cycle == v) = some e) :
    (e.eol.ltb now = true → ubuntu.eolLoop v now l = "EOL") ∧
    (now.ltb e.eol = true → ubuntu.eolLoop v now l = "Supported") := by
  induction l with
  | nil => simp at hf
  | cons x xs ih =>
    by_cases hx : x.cycle = v
    · rw [List.find?_cons_of_pos _ (by simpa using hx)] at hf
      cases hf
      refine ⟨fun h1 => ?_, fun h2 => ?_⟩
      · simp [ubuntu.eolLoop, hx, h1]
      · simp [ubuntu.eolLoop, hx, h2, NaiveDate.ltb_asymm h2]
    · rw [List.find?_cons_of_neg _ (by simpa using hx)] at hf
      have ih' := ih hf
      refine ⟨fun h1 => ?_, fun h2 => ?_⟩
      · simp only [ubuntu.eolLoop, if_neg hx]; exact ih'.1 h1
      · simp only [ubuntu.eolLoop, if_neg hx]; exact ih'.2 h2

theorem centos_eolLoop_first_match {v : String} {now : NaiveDate} {l : List EOLEntity}
    {e : EOLEntity} (hf : l.find? (fun x => x.cycle == v) = some e) :
    (e.eol.ltb now = true → centos.eolLoop v now l = "EOL") ∧
    (now.ltb e.eol = true → e.eol.ltb (addMonths12 now) = true →
      centos.eolLoop v now l = "Ending " ++ e.eol.display) ∧
    (now.ltb e.eol = true → e.eol.ltb (addMonths12 now) = false →
      centos.eolLoop v now l = "Supported") := by
  induction l with
  | nil => simp at hf
  | cons x xs ih =>
    by_cases hx : x.cycle = v
    · rw [List.find?_cons_of_pos _ (by simpa using hx)] at hf
      cases hf
      refine ⟨fun h1 => ?_, fun h2 h3 => ?_, fun h2 h3 => ?_⟩
      · simp [centos.eolLoop, hx, h1]
      · simp [centos.eolLoop, hx, h2, h3, NaiveDate.ltb_asymm h2]
      · simp [centos.eolLoop, hx, h2, h3, NaiveDate.ltb_asymm h2]
    · rw [List.find?_cons_of_neg _ (by simpa using hx)] at hf
      have ih' := ih hf
      refine ⟨fun h1 => ?_, fun h2 h3 => ?_, fun h2 h3 => ?_⟩
      · simp only [centos.eolLoop, if_neg hx]; exact ih'.1 h1
      · simp only [centos.eolLoop, if_neg hx]; exact ih'.2.1 h2 h3
      · simp only [centos.eolLoop, if_neg hx]; exact ih'.2.2 h2 h3

/-! ### Claims -/

/-- Claim C7: the Ubuntu parser maps `"18.04-LTS"` to `"18.04"` and
`"20_04-lts-gen2"` to `"20.04"`; the CentOS/RHEL parser maps `"7-LVM"`,
`"7.6"` and `"7.6.3.4"` all to `"7"`. -/
theorem C7_parser_examples :
    ubuntu.parse_azure_version "18.04-LTS" = some "18.04" ∧
    ubuntu.parse_azure_version "20_04-lts-gen2" = some "20.04" ∧
    centos.parse_azure_version "7-LVM" = some "7" ∧
    centos.parse_azure_version "7.6" = some "7" ∧
    centos.parse_azure_version "7.6.3.4" = some "7" ∧
    redhat.parse_azure_version "7-LVM" = some "7" ∧
    redhat.parse_azure_version "7.6" = some "7" ∧
    redhat.parse_azure_version "7.6.3.4" = some "7" := by
  decide

/-- Claim C2, counterexample: on the empty SKU every parser returns
`some ""`, not `none` — Rust's `split` always yields at least one (possibly
empty) segment, so the `None` branches are unreachable. -/
theorem C2_empty_sku_counterexample :
    ubuntu.parse_azure_version "" ≠ none ∧
    ubuntu.parse_azure_version "" = some "" ∧
    centos.parse_azure_version "" = some "" ∧
    redhat.parse_azure_version "" = some "" := by
  decide

/-- Claim C2, amended: every parser returns `some` on every SKU (so in
particular on every non-empty SKU), and on the empty SKU the value returned
is `some ""`. -/
theorem C2_parser_total (s : String) :
    (ubuntu.parse_azure_version s).isSome = true ∧
    (centos.parse_azure_version s).isSome = true ∧
    (redhat.parse_azure_version s).isSome = true ∧
    ubuntu.parse_azure_version "" = some "" ∧
    centos.parse_azure_version "" = some "" ∧
    redhat.parse_azure_version "" = some "" :=
  ⟨ubuntu_parse_isSome s, centos_parse_isSome s, redhat_parse_isSome s,
   by decide, by decide, by decide⟩

/-- Claim C5: for every family, if the SKU fails to parse or no calendar
entry's cycle equals the parsed version, classification returns `"--"`
(Unknown), whatever the calendar holds; the failure is only ever represented
as a value, never an exception — `is_outdated` is a total function. -/
theorem C5_unknown_cases (vm : VMResult) (l : List EOLEntity) (now : NaiveDate) :
    ((ubuntu.parse_azure_version vm.sku = none ∨
        ∀ e ∈ l, ubuntu.parse_azure_version vm.sku ≠ some e.cycle) →
      ubuntu.is_outdated vm l now = "--") ∧
    ((centos.parse_azure_version vm.sku = none ∨
        ∀ e ∈ l, centos.parse_azure_version vm.sku ≠ some e.cycle) →
      centos.is_outdated vm l now = "--") ∧
    ((redhat.parse_azure_version vm.sku = none ∨
        ∀ e ∈ l, redhat.parse_azure_version vm.sku ≠ some e.cycle) →
      redhat.is_outdated vm l now = "--") := by
  refine ⟨fun h => ?_, fun h => ?_, fun h => ?_⟩
  · rcases h with hnone | hno
    · simp [ubuntu.is_outdated, hnone]
    · cases hp : ubuntu.parse_azure_version vm.sku with
      | none => simp [ubuntu.is_outdated, hp]
      | some v =>
        simp only [ubuntu.is_outdated, hp]
        exact ubuntu_eolLoop_no_match
          (fun e he hc => hno e he (by rw [hp, hc]))
  · rcases h with hnone | hno
    · simp [centos.is_outdated, hnone]
    · cases hp : centos.parse_azure_version vm.sku with
      | none => simp [centos.is_outdated, hp]
      | some v =>
        simp only [centos.is_outdated, hp]
        exact centos_eolLoop_no_match
          (fun e he hc => hno e he (by rw [hp, hc]))
  · rcases h with hnone | hno
    · simp [redhat.is_outdated, hnone]
    · cases hp : redhat.parse_azure_version vm.sku with
      | none => simp [redhat.is_outdated, hp]
      | some v =>
        simp only [redhat.is_outdated, hp, redhat_eolLoop_eq_centos]
        exact centos_eolLoop_no_match
          (fun e he hc => hno e he (by rw [hp, hc]))

/-- Claim C5, witness: a calendar whose single entry matches none of the
parsed versions classifies as `"--"` for all three families. -/
theorem C5_unknown_cases_witness :
    ubuntu.is_outdated sampleVMUbuntu [sampleEntry "99.99" ⟨2030, 1, 1⟩] dNow = "--" ∧
    centos.is_outdated sampleVMCentos [sampleEntry "99" ⟨2030, 1, 1⟩] dNow = "--" ∧
    redhat.is_outdated sampleVMRedhat [sampleEntry "99" ⟨2030, 1, 1⟩] dNow = "--" :=
  ⟨(C5_unknown_cases sampleVMUbuntu [sampleEntry "99.99" ⟨2030, 1, 1⟩] dNow).1
      (Or.inr (by decide)),
   (C5_unknown_cases sampleVMCentos [sampleEntry "99" ⟨2030, 1, 1⟩] dNow).2.1
      (Or.inr (by decide)),
   (C5_unknown_cases sampleVMRedhat [sampleEntry "99" ⟨2030, 1, 1⟩] dNow).2.2
      (Or.inr (by decide))⟩

/-- Claim C6: for every family, when every calendar entry matching the
parsed version has its end-of-life date exactly equal to the current date
(in particular when the unique match does), classification falls through the
loop and returns `"--"`, not `"EOL"` and not an ending-soon value. -/
theorem C6_eol_today_unknown (vm : VMResult) (l : List EOLEntity) (now : NaiveDate) :
    (∀ v, ubuntu.parse_azure_version vm.sku = some v →
      (∃ e ∈ l, e.cycle = v ∧ e.eol = now) →
      (∀ e ∈ l, e.cycle = v → e.eol = now) →
      ubuntu.is_outdated vm l now = "--") ∧
    (∀ v, centos.parse_azure_version vm.sku = some v →
      (∃ e ∈ l, e.cycle = v ∧ e.eol = now) →
      (∀ e ∈ l, e.cycle = v → e.eol = now) →
      centos.is_outdated vm l now = "--") ∧
    (∀ v, redhat.parse_azure_version vm.sku = some v →
      (∃ e ∈ l, e.cycle = v ∧ e.eol = now) →
      (∀ e ∈ l, e.cycle = v → e.eol = now) →
      redhat.is_outdated vm l now = "--") := by
  refine ⟨fun v hp _ hall => ?_, fun v hp _ hall => ?_, fun v hp _ hall => ?_⟩
  · simp only [ubuntu.is_outdated, hp]
    exact ubuntu_eolLoop_all_now hall
  · simp only [centos.is_outdated, hp]
    exact centos_eolLoop_all_now hall
  · simp only [redhat.is_outdated, hp, redhat_eolLoop_eq_centos]
    exact centos_eolLoop_all_now hall

/-- Claim C6, witness: an entry whose EOL date is exactly the current date
classifies as `"--"` for all three families. -/
theorem C6_eol_today_unknown_witness :
    ubuntu.is_outdated sampleVMUbuntu [sampleEntry "18.04" dNow] dNow = "--" ∧
    centos.is_outdated sampleVMCentos [sampleEntry "7" dNow] dNow = "--" ∧
    redhat.is_outdated sampleVMRedhat [sampleEntry "7" dNow] dNow = "--" :=
  ⟨(C6_eol_today_unknown sampleVMUbuntu [sampleEntry "18.04" dNow] dNow).1
      "18.04" (by decide) (by decide) (by decide),
   (C6_eol_today_unknown sampleVMCentos [sampleEntry "7" dNow] dNow).2.1
      "7" (by decide) (by decide) (by decide),
   (C6_eol_today_unknown sampleVMRedhat [sampleEntry "7" dNow] dNow).2.2
      "7" (by decide) (by decide) (by decide)⟩

/-- Claim C3, counterexample: for Ubuntu an exact-match entry whose EOL date
is strictly after the current date yet strictly inside the 12-month window
(here 200 days ahead) classifies as `"Supported"`, not as an ending-soon
status — `ubuntu::is_outdated` has no lookahead window. -/
theorem C3_ubuntu_no_window_counterexample :
    ubuntu.parse_azure_version "18.04-LTS" = some "18.04" ∧
    NaiveDate.ltb ⟨2026, 10, 12⟩ ⟨2027, 4, 30⟩ = true ∧
    NaiveDate.ltb ⟨2027, 4, 30⟩ (addMonths12 ⟨2026, 10, 12⟩) = true ∧
    ubuntu.is_outdated
      { id := "vmid", subscription_id := "sub", publisher := "Canonical",
        offer := "UbuntuServer", sku := "18.04-LTS", version := "latest",
        exact_version := "", os_type := some OsType.Linux }
      [{ cycle := "18.04", lts := true, release_date := ⟨2018, 4, 26⟩,
         latest := "18.04.6", support := ⟨2023, 5, 31⟩, eol := ⟨2027, 4, 30⟩,
         latest_release_date := none }]
      ⟨2026, 10, 12⟩ = "Supported" := by
  decide

/-- Claim C3, amended: only CentOS and RHEL have the 12-month lookahead
window; for them a first-matching entry with `now < eol < now + 12 months`
classifies as the string `"Ending "` followed by the literal end-of-life
date, while Ubuntu classifies any entry with `eol > now` — inside the window
or not — as `"Supported"`. -/
theorem C3_ending_soon (vm : VMResult) (l : List EOLEntity) (now : NaiveDate) :
    (∀ v e, centos.parse_azure_version vm.sku = some v →
      l.find? (fun x => x.cycle == v) = some e →
      now.ltb e.eol = true → e.eol.ltb (addMonths12 now) = true →
      centos.is_outdated vm l now = "Ending " ++ e.eol.display) ∧
    (∀ v e, redhat.parse_azure_version vm.sku = some v →
      l.find? (fun x => x.cycle == v) = some e →
      now.ltb e.eol = true → e.eol.ltb (addMonths12 now) = true →
      redhat.is_outdated vm l now = "Ending " ++ e.eol.display) ∧
    (∀ v e, ubuntu.parse_azure_version vm.sku = some v →
      l.find? (fun x => x.cycle == v) = some e →
      now.ltb e.eol = true → e.eol.ltb (addMonths12 now) = true →
      ubuntu.is_outdated vm l now = "Supported") := by
  refine ⟨fun v e hp hf h2 h3 => ?_, fun v e hp hf h2 h3 => ?_,
          fun v e hp hf h2 _ => ?_⟩
  · simp only [centos.is_outdated, hp]
    exact (centos_eolLoop_first_match hf).2.1 h2 h3
  · simp only [redhat.is_outdated, hp, redhat_eolLoop_eq_centos]
    exact (centos_eolLoop_first_match hf).2.1 h2 h3
  · simp only [ubuntu.is_outdated, hp]
    exact (ubuntu_eolLoop_first_match hf).2 h2

/-- Claim C3, witness: with the current date 2026-10-12 and an entry ending
2027-04-30 (inside the 12-month window), CentOS and RHEL classify as
`"Ending 2027-04-30"` and Ubuntu as `"Supported"`. -/
theorem C3_ending_soon_witness :
    centos.is_outdated sampleVMCentos [sampleEntry "7" ⟨2027, 4, 30⟩] dNow =
      "Ending 2027-04-30" ∧
    redhat.is_outdated sampleVMRedhat [sampleEntry "7" ⟨2027, 4, 30⟩] dNow =
      "Ending 2027-04-30" ∧
    ubuntu.is_outdated sampleVMUbuntu [sampleEntry "18.04" ⟨2027, 4, 30⟩] dNow =
      "Supported" :=
  ⟨(C3_ending_soon sampleVMCentos [sampleEntry "7" ⟨2027, 4, 30⟩] dNow).1
      "7" (sampleEntry "7" ⟨2027, 4, 30⟩) (by decide) (by decide) (by decide) (by decide),
   (C3_ending_soon sampleVMRedhat [sampleEntry "7" ⟨2027, 4, 30⟩] dNow).2.1
      "7" (sampleEntry "7" ⟨2027, 4, 30⟩) (by decide) (by decide) (by decide) (by decide),
   (C3_ending_soon sampleVMUbuntu [sampleEntry "18.04" ⟨2027, 4, 30⟩] dNow).2.2
      "18.04" (sampleEntry "18.04" ⟨2027, 4, 30⟩) (by decide) (by decide) (by decide) (by decide)⟩

/-- Claim C4: for every family, a first-matching calendar entry with
`eol < now` classifies as `"EOL"`, and one with `eol > now` and at or beyond
the 12-month window classifies as `"Supported"` (for Ubuntu, which has no
window, any `eol > now` does). -/
theorem C4_eol_and_supported (vm : VMResult) (l : List EOLEntity) (now : NaiveDate) :
    (∀ v e, ubuntu.parse_azure_version vm.sku = some v →
      l.find? (fun x => x.cycle == v) = some e →
      e.eol.ltb now = true → ubuntu.is_outdated vm l now = "EOL") ∧
    (∀ v e, ubuntu.parse_azure_version vm.sku = some v →
      l.find? (fun x => x.cycle == v) = some e →
      now.ltb e.eol = true → ubuntu.is_outdated vm l now = "Supported") ∧
    (∀ v e, centos.parse_azure_version vm.sku = some v →
      l.find? (fun x => x.cycle == v) = some e →
      e.eol.ltb now = true → centos.is_outdated vm l now = "EOL") ∧
    (∀ v e, centos.parse_azure_version vm.sku = some v →
      l.find? (fun x => x.cycle == v) = some e →
      now.ltb e.eol = true → e.eol.ltb (addMonths12 now) = false →
      centos.is_outdated vm l now = "Supported") ∧
    (∀ v e, redhat.parse_azure_version vm.sku = some v →
      l.find? (fun x => x.cycle == v) = some e →
      e.eol.ltb now = true → redhat.is_outdated vm l now = "EOL") ∧
    (∀ v e, redhat.parse_azure_version vm.sku = some v →
      l.find? (fun x => x.cycle == v) = some e →
      now.ltb e.eol = true → e.eol.ltb (addMonths12 now) = false →
      redhat.is_outdated vm l now = "Supported") := by
  refine ⟨fun v e hp hf h1 => ?_, fun v e hp hf h2 => ?_,
          fun v e hp hf h1 => ?_, fun v e hp hf h2 h3 => ?_,
          fun v e hp hf h1 => ?_, fun v e hp hf h2 h3 => ?_⟩
  · simp only [ubuntu.is_outdated, hp]
    exact (ubuntu_eolLoop_first_match hf).1 h1
  · simp only [ubuntu.is_outdated, hp]
    exact (ubuntu_eolLoop_first_match hf).2 h2
  · simp only [centos.is_outdated, hp]
    exact (centos_eolLoop_first_match hf).1 h1
  · simp only [centos.is_outdated, hp]
    exact (centos_eolLoop_first_match hf).2.2 h2 h3
  · simp only [redhat.is_outdated, hp, redhat_eolLoop_eq_centos]
    exact (centos_eolLoop_first_match hf).1 h1
  · simp only [redhat.is_outdated, hp, redhat_eolLoop_eq_centos]
    exact (centos_eolLoop_first_match hf).2.2 h2 h3

/-- Claim C4, witness: an entry ending 2025-01-01 (in the past) classifies
as `"EOL"` for each family, and one ending 2030-01-01 (beyond the 12-month
window) classifies as `"Supported"`. -/
theorem C4_eol_and_supported_witness :
    ubuntu.is_outdated sampleVMUbuntu [sampleEntry "18.04" ⟨2025, 1, 1⟩] dNow = "EOL" ∧
    ubuntu.is_outdated sampleVMUbuntu [sampleEntry "18.04" ⟨2030, 1, 1⟩] dNow = "Supported" ∧
    centos.is_outdated sampleVMCentos [sampleEntry "7" ⟨2025, 1, 1⟩] dNow = "EOL" ∧
    centos.is_outdated sampleVMCentos [sampleEntry "7" ⟨2030, 1, 1⟩] dNow = "Supported" ∧
    redhat.is_outdated sampleVMRedhat [sampleEntry "7" ⟨2025, 1, 1⟩] dNow = "EOL" ∧
    redhat.is_outdated sampleVMRedhat [sampleEntry "7" ⟨2030, 1, 1⟩] dNow = "Supported" :=
  ⟨(C4_eol_and_supported sampleVMUbuntu [sampleEntry "18.04" ⟨2025, 1, 1⟩] dNow).1
      "18.04" (sampleEntry "18.04" ⟨2025, 1, 1⟩) (by decide) (by decide) (by decide),
   (C4_eol_and_supported sampleVMUbuntu [sampleEntry "18.04" ⟨2030, 1, 1⟩] dNow).2.1
      "18.04" (sampleEntry "18.04" ⟨2030, 1, 1⟩) (by decide) (by decide) (by decide),
   (C4_eol_and_supported sampleVMCentos [sampleEntry "7" ⟨2025, 1, 1⟩] dNow).2.2.1
      "7" (sampleEntry "7" ⟨2025, 1, 1⟩) (by decide) (by decide) (by decide),
   (C4_eol_and_supported sampleVMCentos [sampleEntry "7" ⟨2030, 1, 1⟩] dNow).2.2.2.1
      "7" (sampleEntry "7" ⟨2030, 1, 1⟩) (by decide) (by decide) (by decide) (by decide),
   (C4_eol_and_supported sampleVMRedhat [sampleEntry "7" ⟨2025, 1, 1⟩] dNow).2.2.2.2.1
      "7" (sampleEntry "7" ⟨2025, 1, 1⟩) (by decide) (by decide) (by decide),
   (C4_eol_and_supported sampleVMRedhat [sampleEntry "7" ⟨2030, 1, 1⟩] dNow).2.2.2.2.2
      "7" (sampleEntry "7" ⟨2030, 1, 1⟩) (by decide) (by decide) (by decide) (by decide)⟩

/-- Claim C1, counterexample: family selection reads only the offer field —
a record with publisher `"ubuntu"` and empty offer is classified Unknown by
both output paths although the claimed publisher/offer rule selects Ubuntu;
and the claimed priority order (rhel before windows) is reversed in the
code, as offer `"rhel-windows"` shows; the CSV path has no rhel branch at
all, so offer `"RHEL"` classifies Unknown there, with output `("", "--")`. -/
theorem C1_family_counterexample :
    claim_family "ubuntu" "" = OSFamily.Ubuntu ∧
    excel_family
      { id := "", subscription_id := "", publisher := "ubuntu",
        offer := "", sku := "", version := "", exact_version := "",
        os_type := none } = OSFamily.Unknown ∧
    csv_family
      { id := "", subscription_id := "", publisher := "ubuntu",
        offer := "", sku := "", version := "", exact_version := "",
        os_type := none } = OSFamily.Unknown ∧
    claim_family "" "rhel-windows" = OSFamily.RHEL ∧
    excel_family
      { id := "", subscription_id := "", publisher := "",
        offer := "rhel-windows", sku := "", version := "", exact_version := "",
        os_type := none } = OSFamily.Windows ∧
    claim_family "RedHat" "RHEL" = OSFamily.RHEL ∧
    csv_family
      { id := "", subscription_id := "", publisher := "RedHat",
        offer := "RHEL", sku := "7-LVM", version := "", exact_version := "",
        os_type := none } = OSFamily.Unknown ∧
    version_info_csv (fun _ => none) (fun _ _ _ => "--")
      { id := "", subscription_id := "", publisher := "RedHat",
        offer := "RHEL", sku := "7-LVM", version := "", exact_version := "",
        os_type := none } [] [] [] dNow = ("", "--") := by
  refine ⟨by decide, by decide, by decide, by decide, by decide, by decide,
    by decide, ?_⟩
  rfl

/-- Claim C1, amended: each output path picks the parser/classifier pair by
a case-insensitive substring match on the offer field alone; the Excel path
tests ubuntu, centos, windows, rhel in that order, the CSV path only ubuntu,
centos, windows (so a rhel-only offer is Unknown there); an Unknown family
yields the empty detected version and status `"--"`.  The selection never
reads the publisher. -/
theorem C1_family_dispatch (wparse : String → Option String)
    (wclassify : VMResult → List EOLEntity → NaiveDate → String)
    (vm : VMResult) (ueol ceol weol reol : List EOLEntity) (now : NaiveDate) :
    version_info_excel wparse wclassify vm ueol ceol weol reol now =
      family_dispatch wparse wclassify vm ueol ceol weol reol now (excel_family vm) ∧
    version_info_csv wparse wclassify vm ueol ceol weol now =
      family_dispatch wparse wclassify vm ueol ceol weol reol now (csv_family vm) ∧
    (∀ p, excel_family { vm with publisher := p } = excel_family vm) ∧
    (∀ p, csv_family { vm with publisher := p } = csv_family vm) := by
  refine ⟨?_, ?_, fun p => rfl, fun p => rfl⟩
  · unfold version_info_excel excel_family family_dispatch
    by_cases h1 : strContains (to_lowercase vm.offer) "ubuntu" = true
    · simp [h1]
    by_cases h2 : strContains (to_lowercase vm.offer) "centos" = true
    · simp [h1, h2]
    by_cases h3 : strContains (to_lowercase vm.offer) "windows" = true
    · simp [h1, h2, h3]
    by_cases h4 : strContains (to_lowercase vm.offer) "rhel" = true
    · simp [h1, h2, h3, h4]
    · simp [h1, h2, h3, h4]
  · unfold version_info_csv csv_family family_dispatch
    by_cases h1 : strContains (to_lowercase vm.offer) "ubuntu" = true
    · simp [h1]
    by_cases h2 : strContains (to_lowercase vm.offer) "centos" = true
    · simp [h1, h2]
    by_cases h3 : strContains (to_lowercase vm.offer) "windows" = true
    · simp [h1, h2, h3]
    · simp [h1, h2, h3]

/-- Claim C9: a VM entry with properties, storage profile and OS disk
present but no image reference still yields exactly one inventory record,
with empty publisher, offer, sku, version and exact-version fields, and both
output paths classify that record's family as Unknown. -/
theorem C9_missing_image_reference (sub : String) (vm : VM)
    (properties : VMProperties) (sp : StorageProfile) (od : OsDisk)
    (hp : vm.properties = some properties)
    (hs : properties.storage_profile = some sp)
    (hi : sp.image_reference = none)
    (ho : sp.os_disk = some od) :
    process_vm sub vm = some
      { id := vm.id.getD "", subscription_id := sub, publisher := "",
        offer := "", sku := "", version := "", exact_version := "",
        os_type := od.os_type } ∧
    excel_family
      { id := vm.id.getD "", subscription_id := sub, publisher := "",
        offer := "", sku := "", version := "", exact_version := "",
        os_type := od.os_type } = OSFamily.Unknown ∧
    csv_family
      { id := vm.id.getD "", subscription_id := sub, publisher := "",
        offer := "", sku := "", version := "", exact_version := "",
        os_type := od.os_type } = OSFamily.Unknown := by
  refine ⟨?_, rfl, rfl⟩
  simp [process_vm, hp, hs, hi, ho]

/-- Claim C9, witness: a concrete VM entry with all nested fields except the
image reference produces the blank-fielded record. -/
theorem C9_missing_image_reference_witness :
    process_vm "s1"
      { id := some "/subscriptions/s1/vm/x",
        properties := some
          { storage_profile := some
              { image_reference := none,
                os_disk := some { os_type := some OsType.Linux } } } } = some
      { id := "/subscriptions/s1/vm/x", subscription_id := "s1",
        publisher := "", offer := "", sku := "", version := "",
        exact_version := "", os_type := some OsType.Linux } :=
  (C9_missing_image_reference "s1"
      { id := some "/subscriptions/s1/vm/x",
        properties := some
          { storage_profile := some
              { image_reference := none,
                os_disk := some { os_type := some OsType.Linux } } } }
      { storage_profile := some
          { image_reference := none,
            os_disk := some { os_type := some OsType.Linux } } }
      { image_reference := none,
        os_disk := some { os_type := some OsType.Linux } }
      { os_type := some OsType.Linux }
      rfl rfl rfl rfl).1

/-- Claim C10, counterexample: the header labels of columns five and six,
`"Subscription"` and `"Publisher"`, sit exactly over the subscription and
publisher values of every data row — there is no shifted order at column
six as the claim asserts. -/
theorem C10_csv_counterexample :
    csv_header_fields.get? 4 = some "Subscription" ∧
    csv_header_fields.get? 5 = some "Publisher" ∧
    (csv_fields
      { id := "ID0", subscription_id := "SUB0", publisher := "PUB0",
        offer := "OFF0", sku := "SKU0", version := "VER0",
        exact_version := "EX0", os_type := some OsType.Linux }
      "DET0" "ST0").get? 4 = some "SUB0" ∧
    (csv_fields
      { id := "ID0", subscription_id := "SUB0", publisher := "PUB0",
        offer := "OFF0", sku := "SKU0", version := "VER0",
        exact_version := "EX0", os_type := some OsType.Linux }
      "DET0" "ST0").get? 5 = some "PUB0" := by
  decide

/-- Claim C10, amended: every CSV data row carries, in order, the detected
version, the status, the resource id, the Debug form of the optional OS
type, the subscription, publisher, offer, SKU, version and exact version;
the header line swaps the first two labels relative to the data
(`"Deprecated"` over the detected version and `"Version (detected)"` over
the status), so those two labels do not describe the values beneath them,
while the labels of columns three to ten align with the data. -/
theorem C10_csv_columns (vm : VMResult) (detected status : String) :
    csv_line vm detected status =
      String.intercalate ";" (csv_fields vm detected status) ++ "\n" ∧
    csv_header_line = String.intercalate ";" csv_header_fields ++ "\n" ∧
    (csv_fields vm detected status).get? 0 = some detected ∧
    csv_header_fields.get? 0 = some "Deprecated" ∧
    (csv_fields vm detected status).get? 1 = some status ∧
    csv_header_fields.get? 1 = some "Version (detected)" ∧
    (csv_fields vm detected status).get? 2 = some vm.id ∧
    csv_header_fields.get? 2 = some "ID" ∧
    (csv_fields vm detected status).get? 3 = some (osTypeDebug vm.os_type) ∧
    csv_header_fields.get? 3 = some "OS" ∧
    (csv_fields vm detected status).get? 4 = some vm.subscription_id ∧
    csv_header_fields.get? 4 = some "Subscription" ∧
    (csv_fields vm detected status).get? 5 = some vm.publisher ∧
    csv_header_fields.get? 5 = some "Publisher" ∧
    (csv_fields vm detected status).get? 6 = some vm.offer ∧
    csv_header_fields.get? 6 = some "Offer" ∧
    (csv_fields vm detected status).get? 7 = some vm.sku ∧
    csv_header_fields.get? 7 = some "SKU" ∧
    (csv_fields vm detected status).get? 8 = some vm.version ∧
    csv_header_fields.get? 8 = some "Version" ∧
    (csv_fields vm detected status).get? 9 = some vm.exact_version ∧
    csv_header_fields.get? 9 = some "Exact version" := by
  exact ⟨rfl, by decide, rfl, rfl, rfl, rfl, rfl, rfl, rfl, rfl, rfl, rfl,
    rfl, rfl, rfl, rfl, rfl, rfl, rfl, rfl, rfl, rfl⟩

/-- Claim C8: if any calendar fetch a writer performs fails, the writer
stops with that error, the error propagates unchanged through `main`'s
format dispatch, and the modelled process exit status is non-zero; the
effects already performed are retained exactly — for CSV the file creation
and the header line, which precede every calendar fetch — and no effect
removes output. -/
theorem C8_fetch_failure (wparse : String → Option String)
    (wclassify : VMResult → List EOLEntity → NaiveDate → String)
    (fr : FetchResults) (records : List VMResult) (now : NaiveDate) :
    ((∃ e, fr.ubuntu = Except.error e ∨ fr.centos = Except.error e ∨
        fr.windows = Except.error e) →
      (write_to_csv wparse wclassify fr records now).1 =
        [OutEffect.createFile, OutEffect.writeLine csv_header_line] ∧
      ∃ e, (write_to_csv wparse wclassify fr records now).2 = Except.error e ∧
        (main_run wparse wclassify OutputType.CSV fr records now).2 = Except.error e ∧
        exit_status (main_run wparse wclassify OutputType.CSV fr records now).2 = 1) ∧
    ((∃ e, fr.ubuntu = Except.error e ∨ fr.centos = Except.error e ∨
        fr.windows = Except.error e ∨ fr.redhat = Except.error e) →
      (write_to_excel wparse wclassify fr records now).1 = [] ∧
      ∃ e, (write_to_excel wparse wclassify fr records now).2 = Except.error e ∧
        (main_run wparse wclassify OutputType.EXCEL fr records now).2 = Except.error e ∧
        exit_status (main_run wparse wclassify OutputType.EXCEL fr records now).2 = 1) := by
  obtain ⟨fu, fc, fw, fd⟩ := fr
  constructor
  · rintro ⟨e, he⟩
    cases fu with
    | error eu => exact ⟨rfl, eu, rfl, rfl, rfl⟩
    | ok lu =>
      cases fc with
      | error ec => exact ⟨rfl, ec, rfl, rfl, rfl⟩
      | ok lc =>
        cases fw with
        | error ew => exact ⟨rfl, ew, rfl, rfl, rfl⟩
        | ok lw => rcases he with h | h | h <;> simp at h
  · rintro ⟨e, he⟩
    cases fu with
    | error eu => exact ⟨rfl, eu, rfl, rfl, rfl⟩
    | ok lu =>
      cases fc with
      | error ec => exact ⟨rfl, ec, rfl, rfl, rfl⟩
      | ok lc =>
        cases fw with
        | error ew => exact ⟨rfl, ew, rfl, rfl, rfl⟩
        | ok lw =>
          cases fd with
          | error ed => exact ⟨rfl, ed, rfl, rfl, rfl⟩
          | ok ld => rcases he with h | h | h | h <;> simp at h

/-- Claim C8, witness: a failing ubuntu-calendar fetch leaves the CSV trace
at exactly the created file plus the header line with exit status 1, and
leaves the Excel trace empty with exit status 1. -/
theorem C8_fetch_failure_witness :
    (write_to_csv (fun _ => none) (fun _ _ _ => "--")
        ⟨Except.error "connection refused", Except.ok [], Except.ok [],
         Except.ok []⟩ [] dNow).1 =
      [OutEffect.createFile, OutEffect.writeLine csv_header_line] ∧
    exit_status (main_run (fun _ => none) (fun _ _ _ => "--") OutputType.CSV
        ⟨Except.error "connection refused", Except.ok [], Except.ok [],
         Except.ok []⟩ [] dNow).2 = 1 ∧
    (write_to_excel (fun _ => none) (fun _ _ _ => "--")
        ⟨Except.error "connection refused", Except.ok [], Except.ok [],
         Except.ok []⟩ [] dNow).1 = [] ∧
    exit_status (main_run (fun _ => none) (fun _ _ _ => "--") OutputType.EXCEL
        ⟨Except.error "connection refused", Except.ok [], Except.ok [],
         Except.ok []⟩ [] dNow).2 = 1 := by
  have h := C8_fetch_failure (fun _ => none) (fun _ _ _ => "--")
    ⟨Except.error "connection refused", Except.ok [], Except.ok [],
     Except.ok []⟩ [] dNow
  obtain ⟨hc1, e1, he1, hm1, hx1⟩ := h.1 ⟨"connection refused", Or.inl rfl⟩
  obtain ⟨hx2a, e2, he2, hm2, hx2⟩ := h.2 ⟨"connection refused", Or.inl rfl⟩
  exact ⟨hc1, hx1, hx2a, hx2⟩
